import Mathlib

set_option autoImplicit false

/-
  Verification of the frame lifecycle and GPU resource/synchronization
  management subsystem of the VulkanApplication repository
  (src/VulkanApplication).  The embedding models Vulkan handles as natural
  numbers; VK_NULL_HANDLE is modelled as `none` of an `Option Nat`.
  External collaborators (the Vulkan device, the VMA-backed allocator
  service in memory.cpp, which is not under src/) are modelled as explicit
  state machines driven by a success oracle.
-/

/-- Constant MAX_FRAMES_IN_FLIGHT (include/graphics.hpp line 29 and
include/graphics_pipeline.hpp line 28): the number N of frame slots. -/
def MAX_FRAMES_IN_FLIGHT : Nat := 2

/-- Result codes returned by the Vulkan API calls that drawFrame makes.
success models VK_SUCCESS; errorOutOfDateKHR models the stale-surface
condition VK_ERROR_OUT_OF_DATE_KHR; suboptimalKHR models VK_SUBOPTIMAL_KHR;
errorDeviceLost stands for a representative unrecoverable error code. -/
inductive VkResult where
  | success
  | suboptimalKHR
  | errorOutOfDateKHR
  | errorDeviceLost
  deriving DecidableEq, Repr

/-- One iteration of VulkanApplication::drawFrame
(src/VulkanApplication/application.cpp lines 189-241), abstracted over the
result codes the external Vulkan API returns for the acquire, submit and
present calls.  The source checks each call with a bare
comparison against VK_SUCCESS and throws a fixed std::runtime_error message
on any other result (lines 197-201, 223-225, 237-239); a thrown error is
modelled as Except.error carrying the thrown message.  When all three calls
succeed the member currentFrame advances to
(currentFrame + 1) % MAX_FRAMES_IN_FLIGHT (line 240). -/
def drawFrame (acquireRes submitRes presentRes : VkResult) (currentFrame : Nat) :
    Except String Nat :=
  if acquireRes ≠ VkResult.success then
    Except.error "failed to acquire swap chain image!"
  else if submitRes ≠ VkResult.success then
    Except.error "failed to submit draw command buffer!"
  else if presentRes ≠ VkResult.success then
    Except.error "failed to present swap chain image!"
  else
    Except.ok ((currentFrame + 1) % MAX_FRAMES_IN_FLIGHT)

/-- The value of the currentFrame member after k successful drawFrame
iterations, starting from its initial value 0
(include/application.hpp member currentFrame, advanced at
application.cpp line 240). -/
def frameSlotAfter : Nat → Nat
  | 0 => 0
  | k + 1 => (frameSlotAfter k + 1) % MAX_FRAMES_IN_FLIGHT

/-- Size in bytes of struct UniformBufferObject (include/graphics.hpp lines
94-98 and include/graphics_pipeline.hpp lines 65-69): three glm::mat4
members (model, view, proj), each 16 floats of 4 bytes, 192 bytes total. -/
def sizeofUniformBufferObject : Nat := 192

/-- The byte-level effect of memcpy(dst, src, n): the first n bytes of dst
are replaced by the first n bytes of src and the remaining bytes of dst are
untouched. -/
def memcpyBytes (dst src : List Nat) (n : Nat) : List Nat :=
  src.take n ++ dst.drop n

/-- The part of the BufferManager state that updateUniformBuffer can read or
write: the persistently mapped per-frame uniform regions (none models a null
mapped pointer, some holds the byte content of the mapped region), together
with the device-local vertex and index buffer contents. -/
structure BufferBytesState where
  uniformBuffersMapped : List (Option (List Nat))
  vertexBufferData : List Nat
  indexBufferData : List Nat
  deriving DecidableEq, Repr

/-- Outcome of a call to BufferManager::updateUniformBuffer. -/
inductive UpdateResult where
  | ok
  | rangeError
  | stateError
  | undefinedAccess
  deriving DecidableEq, Repr

/-- BufferManager::updateUniformBuffer (src/VulkanApplication/graphics.cpp
lines 268-282).  It first checks currentFrame against MAX_FRAMES_IN_FLIGHT
and throws std::out_of_range when the index is too large (rangeError); it
then reads uniformBuffersMapped[currentFrame] and throws a
std::runtime_error when the mapped pointer is null (stateError); otherwise
it performs memcpy(data, ubo, sizeof(ubo)) into the mapped region.  An index
that passes the bound check but exceeds the vector length would be an
unchecked std::vector access (undefinedAccess); the state is returned
unchanged on every non-ok path, since the function writes nothing before it
throws. -/
def updateUniformBuffer (st : BufferBytesState) (currentFrame : Nat)
    (ubo : List Nat) : UpdateResult × BufferBytesState :=
  if MAX_FRAMES_IN_FLIGHT ≤ currentFrame then
    (UpdateResult.rangeError, st)
  else
    match st.uniformBuffersMapped.get? currentFrame with
    | none => (UpdateResult.undefinedAccess, st)
    | some none => (UpdateResult.stateError, st)
    | some (some region) =>
        let written := memcpyBytes region ubo sizeofUniformBufferObject
        (UpdateResult.ok,
         { st with uniformBuffersMapped :=
            st.uniformBuffersMapped.set currentFrame (some written) })

/-- A read of sizeof(UniformBufferObject) bytes from the mapped uniform
region of the given slot, as the round-trip test of the spec performs it:
none when the slot index is out of the vector or its mapped pointer is
null. -/
def readUniformBytes (st : BufferBytesState) (slot : Nat) : Option (List Nat) :=
  match st.uniformBuffersMapped.get? slot with
  | some (some region) => some (region.take sizeofUniformBufferObject)
  | _ => none

/-- Outcome of one of the per-frame accessor calls.  ok carries the stored
handle that the accessor returned (none models a returned VK_NULL_HANDLE);
thrown carries the message of the std::runtime_error the accessor threw;
undefinedAccess marks an out-of-range std::vector operator[] access, which
the C++ performs unchecked. -/
inductive AccessOutcome where
  | ok (h : Option Nat)
  | thrown (msg : String)
  | undefinedAccess
  deriving DecidableEq, Repr

/-- Per-frame handle vectors owned by CommandBufferManager
(include/graphics.hpp lines 205-216): command buffers, image-available
semaphores, render-finished semaphores and in-flight fences, one slot per
frame in flight. -/
structure CommandBufferManagerState where
  commandBuffers : List (Option Nat)
  imageAvailableSemaphores : List (Option Nat)
  renderFinishedSemaphores : List (Option Nat)
  inFlightFences : List (Option Nat)
  deriving DecidableEq, Repr

/-- Common shape of the four CommandBufferManager accessors
(src/VulkanApplication/graphics.cpp lines 112-146): read v[frameIndex] with
unchecked operator[], throw the given message when the stored handle equals
VK_NULL_HANDLE, and return the handle otherwise.  The index itself is never
compared against the vector size. -/
def nullCheckedGet (v : List (Option Nat)) (i : Nat) (msg : String) : AccessOutcome :=
  match v.get? i with
  | none => AccessOutcome.undefinedAccess
  | some none => AccessOutcome.thrown msg
  | some (some h) => AccessOutcome.ok (some h)

/-- CommandBufferManager::getCommandBuffer (graphics.cpp lines 112-119). -/
def CBM_getCommandBuffer (m : CommandBufferManagerState) (i : Nat) : AccessOutcome :=
  nullCheckedGet m.commandBuffers i
    ("Command Buffer ." ++ toString i ++ " does not exist!")

/-- CommandBufferManager::getImageAvailableSemaphore (graphics.cpp lines
122-128). -/
def CBM_getImageAvailableSemaphore (m : CommandBufferManagerState) (i : Nat) : AccessOutcome :=
  nullCheckedGet m.imageAvailableSemaphores i
    ("Image available semaphore " ++ toString i ++ " does not exist!")

/-- CommandBufferManager::getRenderFinishedSemaphore (graphics.cpp lines
131-137). -/
def CBM_getRenderFinishedSemaphore (m : CommandBufferManagerState) (i : Nat) : AccessOutcome :=
  nullCheckedGet m.renderFinishedSemaphores i
    ("Render Finished Semaphore " ++ toString i ++ " does not exist!")

/-- CommandBufferManager::getInFlightFence (graphics.cpp lines 140-146). -/
def CBM_getInFlightFence (m : CommandBufferManagerState) (i : Nat) : AccessOutcome :=
  nullCheckedGet m.inFlightFences i
    ("In Flight Fence " ++ toString i ++ " does not exist!")

/-- Per-frame handle vectors owned by the GraphicsPipeline class of
graphics_pipeline.cpp (include/graphics_pipeline.hpp). -/
structure GraphicsPipelineSyncState where
  commandBuffers : List (Option Nat)
  imageAvailableSemaphores : List (Option Nat)
  renderFinishedSemaphores : List (Option Nat)
  inFlightFences : List (Option Nat)
  deriving DecidableEq, Repr

/-- Common shape of the four GraphicsPipeline accessors
(src/VulkanApplication/graphics_pipeline.cpp lines 99-116): return
v[frameIndex] directly, with no bound check and no null check. -/
def uncheckedGet (v : List (Option Nat)) (i : Nat) : AccessOutcome :=
  match v.get? i with
  | none => AccessOutcome.undefinedAccess
  | some h => AccessOutcome.ok h

/-- GraphicsPipeline::getCommandBuffer (graphics_pipeline.cpp lines
99-101). -/
def GP_getCommandBuffer (g : GraphicsPipelineSyncState) (i : Nat) : AccessOutcome :=
  uncheckedGet g.commandBuffers i

/-- GraphicsPipeline::getImageAvailableSemaphore (graphics_pipeline.cpp
lines 104-106). -/
def GP_getImageAvailableSemaphore (g : GraphicsPipelineSyncState) (i : Nat) : AccessOutcome :=
  uncheckedGet g.imageAvailableSemaphores i

/-- GraphicsPipeline::getRenderFinishedSemaphore (graphics_pipeline.cpp
lines 109-111). -/
def GP_getRenderFinishedSemaphore (g : GraphicsPipelineSyncState) (i : Nat) : AccessOutcome :=
  uncheckedGet g.renderFinishedSemaphores i

/-- GraphicsPipeline::getInFlightFence (graphics_pipeline.cpp lines
114-116). -/
def GP_getInFlightFence (g : GraphicsPipelineSyncState) (i : Nat) : AccessOutcome :=
  uncheckedGet g.inFlightFences i

/-- A fence as created by the external vkCreateFence collaborator: signaled
records the initial signal state, which is set exactly when
VK_FENCE_CREATE_SIGNALED_BIT was put in the create-info flags. -/
structure Fence where
  signaled : Bool
  deriving DecidableEq, Repr

/-- External collaborator model (spec section 6): vkCreateSemaphore either
returns a fresh semaphore handle or is rejected by the device.  The oracle
ok decides whether the c-th device creation call succeeds; c is the running
call counter. -/
def createSemaphoreOp (ok : Nat → Bool) (c : Nat) : Option Nat × Nat :=
  (if ok c then some c else none, c + 1)

/-- External collaborator model (spec section 6): vkCreateFence either
returns a fence whose initial signaled state equals the
VK_FENCE_CREATE_SIGNALED_BIT of its create info, or is rejected. -/
def createFenceOp (ok : Nat → Bool) (signaledBit : Bool) (c : Nat) : Option Fence × Nat :=
  (if ok c then some { signaled := signaledBit } else none, c + 1)

/-- External collaborator model: vkWaitForFences with an unbounded timeout
returns immediately exactly when the fence is already signaled; otherwise
the caller blocks until the device signals it. -/
def waitForFencesReturnsImmediately (f : Fence) : Bool :=
  f.signaled

/-- Loop body of CommandBufferManager::createSyncObjects
(src/VulkanApplication/graphics.cpp lines 177-181): for each remaining
frame slot create an image-available semaphore, a render-finished semaphore
and a fence, in that order; each helper lambda throws on failure (lines
154-175).  The fence create info carries VK_FENCE_CREATE_SIGNALED_BIT
(line 169), passed here as the literal true. -/
def CBM_createSyncObjectsLoop (ok : Nat → Bool) :
    Nat → Nat → List Nat → List Nat → List Fence →
    Except String (List Nat × List Nat × List Fence)
  | _, 0, ia, rf, fe => Except.ok (ia, rf, fe)
  | c, k + 1, ia, rf, fe =>
    match createSemaphoreOp ok c with
    | (none, _) => Except.error "failed to create semaphore!"
    | (some s1, c1) =>
      match createSemaphoreOp ok c1 with
      | (none, _) => Except.error "failed to create semaphore!"
      | (some s2, c2) =>
        match createFenceOp ok true c2 with
        | (none, _) => Except.error "failed to create fence!"
        | (some f, c3) =>
            CBM_createSyncObjectsLoop ok c3 k (ia ++ [s1]) (rf ++ [s2]) (fe ++ [f])

/-- CommandBufferManager::createSyncObjects (graphics.cpp lines 149-182):
run the creation loop over all MAX_FRAMES_IN_FLIGHT slots starting from
empty handle vectors. -/
def CBM_createSyncObjects (ok : Nat → Bool) :
    Except String (List Nat × List Nat × List Fence) :=
  CBM_createSyncObjectsLoop ok 0 MAX_FRAMES_IN_FLIGHT [] [] []

/-- Loop body of GraphicsPipeline::createSyncObjects
(src/VulkanApplication/graphics_pipeline.cpp lines 190-196): identical
creation order, with one shared error message for any of the three
failures; the fence create info also carries VK_FENCE_CREATE_SIGNALED_BIT
(line 188). -/
def GP_createSyncObjectsLoop (ok : Nat → Bool) :
    Nat → Nat → List Nat → List Nat → List Fence →
    Except String (List Nat × List Nat × List Fence)
  | _, 0, ia, rf, fe => Except.ok (ia, rf, fe)
  | c, k + 1, ia, rf, fe =>
    match createSemaphoreOp ok c with
    | (none, _) => Except.error "failed to create synchronization objects for a frame!"
    | (some s1, c1) =>
      match createSemaphoreOp ok c1 with
      | (none, _) => Except.error "failed to create synchronization objects for a frame!"
      | (some s2, c2) =>
        match createFenceOp ok true c2 with
        | (none, _) => Except.error "failed to create synchronization objects for a frame!"
        | (some f, c3) =>
            GP_createSyncObjectsLoop ok c3 k (ia ++ [s1]) (rf ++ [s2]) (fe ++ [f])

/-- GraphicsPipeline::createSyncObjects (graphics_pipeline.cpp lines
178-197). -/
def GP_createSyncObjects (ok : Nat → Bool) :
    Except String (List Nat × List Nat × List Fence) :=
  GP_createSyncObjectsLoop ok 0 MAX_FRAMES_IN_FLIGHT [] [] []

/-- Modelled from the spec: the AllocatorManager memory-allocation service
(repository file memory.cpp, which is not under src/), per spec section 6:
allocate-buffer returns a fresh (buffer, allocation) pair or is rejected by
the underlying API; free releases it; map returns a host pointer or fails;
copy executes a synchronous one-shot transfer that can fail.  The state
tracks the outstanding allocations by handle (most recent first), the next
fresh handle, and a running counter of fallible allocator calls; the oracle
ok decides whether the n-th fallible call succeeds. -/
structure Alloc where
  nextId : Nat
  live : List Nat
  calls : Nat
  deriving DecidableEq, Repr

/-- Modelled from the spec: AllocatorManager::createBuffer.  On success a
fresh buffer handle is returned and recorded outstanding; on rejection a
std::runtime_error is thrown (none) and nothing is allocated. -/
def allocCreateBuffer (ok : Nat → Bool) (a : Alloc) : Option Nat × Alloc :=
  if ok a.calls then
    (some a.nextId,
     { nextId := a.nextId + 1, live := a.nextId :: a.live, calls := a.calls + 1 })
  else
    (none, { a with calls := a.calls + 1 })

/-- Modelled from the spec: AllocatorManager::destroyBuffer releases the
given outstanding allocation. -/
def allocDestroyBuffer (a : Alloc) (id : Nat) : Alloc :=
  { a with live := a.live.erase id }

/-- Modelled from the spec: AllocatorManager::mapMemory returns a non-null
host pointer (modelled as the marker 1) or throws. -/
def allocMapMemory (ok : Nat → Bool) (a : Alloc) : Option Nat × Alloc :=
  (if ok a.calls then some 1 else none, { a with calls := a.calls + 1 })

/-- Modelled from the spec: AllocatorManager::copyBuffer records and submits
a one-shot staging-to-destination copy, waits for it, and can fail; it
allocates nothing. -/
def allocCopyBuffer (ok : Nat → Bool) (a : Alloc) : Bool × Alloc :=
  (ok a.calls, { a with calls := a.calls + 1 })

/-- Result of one staged buffer upload by BufferManager: the boolean the
function returned, the allocator state afterwards, and the value of the
destination-buffer member (vertexBuffer or indexBuffer) afterwards; the
member keeps the handle assigned in step 3 even on the failed-copy path,
where that handle has already been destroyed. -/
structure UploadResult where
  succeeded : Bool
  alloc : Alloc
  bufferHandle : Option Nat
  deriving DecidableEq, Repr

/-- BufferManager::createVertexBuffer and BufferManager::createIndexBuffer
(src/VulkanApplication/graphics.cpp lines 306-356 and 359-409; the two are
identical in their allocator effects, differing only in usage flags and
source bytes).  Step 1 creates the staging buffer (on failure return false,
nothing to clean); step 2 maps it (on failure destroy the staging buffer
and return false), copies the source data and unmaps; step 3 creates the
device-local destination buffer (on failure destroy the staging buffer and
return false); step 4 copies staging to destination (on failure destroy the
staging buffer, then the destination buffer, and return false); step 5
destroys the staging buffer and returns true. -/
def BM_stagedUpload (ok : Nat → Bool) (a : Alloc) : UploadResult :=
  match allocCreateBuffer ok a with
  | (none, a1) => { succeeded := false, alloc := a1, bufferHandle := none }
  | (some staging, a1) =>
    match allocMapMemory ok a1 with
    | (none, a2) =>
        { succeeded := false, alloc := allocDestroyBuffer a2 staging,
          bufferHandle := none }
    | (some _, a2) =>
      match allocCreateBuffer ok a2 with
      | (none, a3) =>
          { succeeded := false, alloc := allocDestroyBuffer a3 staging,
            bufferHandle := none }
      | (some dst, a3) =>
        match allocCopyBuffer ok a3 with
        | (false, a4) =>
            { succeeded := false,
              alloc := allocDestroyBuffer (allocDestroyBuffer a4 staging) dst,
              bufferHandle := some dst }
        | (true, a4) =>
            { succeeded := true, alloc := allocDestroyBuffer a4 staging,
              bufferHandle := some dst }

/-- BufferManager::createVertexBuffer (graphics.cpp lines 306-356). -/
def BM_createVertexBuffer (ok : Nat → Bool) (a : Alloc) : UploadResult :=
  BM_stagedUpload ok a

/-- BufferManager::createIndexBuffer (graphics.cpp lines 359-409). -/
def BM_createIndexBuffer (ok : Nat → Bool) (a : Alloc) : UploadResult :=
  BM_stagedUpload ok a

/-- The destructor action of BufferManager for its vertex or index buffer
(graphics.cpp lines 256-264): destroy the buffer exactly when the stored
member handle is not VK_NULL_HANDLE. -/
def destroyOptBuffer (a : Alloc) (h : Option Nat) : Alloc :=
  match h with
  | none => a
  | some id => allocDestroyBuffer a id

/-- GraphicsPipeline::createVertexBuffer
(src/VulkanApplication/graphics_pipeline.cpp lines 447-469): same staged
upload but with no try/catch at all; any allocator failure propagates as an
exception (threw = true) with no cleanup, so neither the staging buffer nor
the already-created destination buffer is destroyed on a failing path. -/
structure GPUploadResult where
  threw : Bool
  alloc : Alloc
  bufferHandle : Option Nat
  deriving DecidableEq, Repr

/-- GraphicsPipeline::createVertexBuffer (graphics_pipeline.cpp lines
447-469); GraphicsPipeline::createIndexBuffer (lines 472-496) is
identical in allocator effects. -/
def GP_createVertexBuffer (ok : Nat → Bool) (a : Alloc) : GPUploadResult :=
  match allocCreateBuffer ok a with
  | (none, a1) => { threw := true, alloc := a1, bufferHandle := none }
  | (some staging, a1) =>
    match allocMapMemory ok a1 with
    | (none, a2) => { threw := true, alloc := a2, bufferHandle := none }
    | (some _, a2) =>
      match allocCreateBuffer ok a2 with
      | (none, a3) => { threw := true, alloc := a3, bufferHandle := none }
      | (some dst, a3) =>
        match allocCopyBuffer ok a3 with
        | (false, a4) => { threw := true, alloc := a4, bufferHandle := some dst }
        | (true, a4) =>
            { threw := false, alloc := allocDestroyBuffer a4 staging,
              bufferHandle := some dst }

/-- The cleanup loops of BufferManager::createUniformBuffers (graphics.cpp
lines 429-431 and 441-443): destroy the listed already-created uniform
buffers in index order. -/
def destroyBuffersList (a : Alloc) (created : List Nat) : Alloc :=
  created.foldl allocDestroyBuffer a

/-- Result of BufferManager::createUniformBuffers: the boolean the function
returned, the allocator state afterwards, and the uniformBuffers and
uniformBuffersMapped vectors (resized to MAX_FRAMES_IN_FLIGHT slots holding
VK_NULL_HANDLE and null pointers before the loop starts). -/
structure UniformBuffersResult where
  succeeded : Bool
  alloc : Alloc
  uniformBuffers : List (Option Nat)
  uniformBuffersMapped : List (Option Nat)
  deriving DecidableEq, Repr

/-- Loop of BufferManager::createUniformBuffers (graphics.cpp lines
420-446), with k remaining iterations at loop index i and created holding
the buffers made so far in index order.  Step 1 creates uniform buffer i;
on failure destroy buffers 0..i-1 (the created list) and return false.
Step 2 maps it; on failure destroy buffers 0..i (created plus the new one)
and return false.  Otherwise store the buffer handle and mapped pointer at
index i and continue. -/
def BM_createUniformBuffersLoop (ok : Nat → Bool) :
    Nat → Alloc → Nat → List Nat → List (Option Nat) → List (Option Nat) →
    UniformBuffersResult
  | 0, a, _, _, bufs, mapped =>
      { succeeded := true, alloc := a, uniformBuffers := bufs,
        uniformBuffersMapped := mapped }
  | k + 1, a, i, created, bufs, mapped =>
    match allocCreateBuffer ok a with
    | (none, a1) =>
        { succeeded := false, alloc := destroyBuffersList a1 created,
          uniformBuffers := bufs, uniformBuffersMapped := mapped }
    | (some id, a1) =>
      match allocMapMemory ok a1 with
      | (none, a2) =>
          { succeeded := false,
            alloc := destroyBuffersList a2 (created ++ [id]),
            uniformBuffers := bufs.set i (some id),
            uniformBuffersMapped := mapped }
      | (some p, a2) =>
          BM_createUniformBuffersLoop ok k a2 (i + 1) (created ++ [id])
            (bufs.set i (some id)) (mapped.set i (some p))

/-- BufferManager::createUniformBuffers (graphics.cpp lines 412-449). -/
def BM_createUniformBuffers (ok : Nat → Bool) (a : Alloc) : UniformBuffersResult :=
  BM_createUniformBuffersLoop ok MAX_FRAMES_IN_FLIGHT a 0 []
    (List.replicate MAX_FRAMES_IN_FLIGHT none)
    (List.replicate MAX_FRAMES_IN_FLIGHT none)

/-- State of a BufferManager after its constructor ran.  The three boolean
results of the creation calls are not part of the state because the
constructor discards them. -/
structure BufferManagerCtorResult where
  alloc : Alloc
  vertexBufferMember : Option Nat
  indexBufferMember : Option Nat
  uniformBuffers : List (Option Nat)
  uniformBuffersMapped : List (Option Nat)
  deriving DecidableEq, Repr

/-- BufferManager::BufferManager (graphics.cpp lines 222-240): call
createVertexBuffer, createIndexBuffer and createUniformBuffers in order and
discard each boolean result; the constructor itself never throws, so it
completes whatever those calls returned. -/
def BufferManagerCtor (ok : Nat → Bool) (a : Alloc) : BufferManagerCtorResult :=
  let rv := BM_createVertexBuffer ok a
  let ri := BM_createIndexBuffer ok rv.alloc
  let ru := BM_createUniformBuffers ok ri.alloc
  { alloc := ru.alloc,
    vertexBufferMember := rv.bufferHandle,
    indexBufferMember := ri.bufferHandle,
    uniformBuffers := ru.uniformBuffers,
    uniformBuffersMapped := ru.uniformBuffersMapped }

/-- A command recorded into a command buffer during recordCommandBuffer;
drawIndexed carries the five arguments of vkCmdDrawIndexed. -/
inductive Cmd where
  | beginRenderPass (imageIndex : Nat)
  | bindPipeline
  | setViewport
  | setScissor
  | bindVertexBuffers
  | bindIndexBuffer
  | bindDescriptorSets (frameIndex : Nat)
  | drawIndexed (indexCount instanceCount firstIndex vertexOffset firstInstance : Nat)
  | endRenderPass
  deriving DecidableEq, Repr

/-- GraphicsPipeline::recordCommandBuffer of graphics_pipeline.cpp (lines
200-252): the command sequence recorded into the slot command buffer on the
successful recording path, for the member index array.  The indexed draw
passes static_cast of indices.size() to uint32_t (hence modulo 2 to the
32nd), instance count 1 and zero offsets (line 245). -/
def GP_recordCommandBuffer (indices : List Nat) (frameIndex imageIndex : Nat) :
    List Cmd :=
  [Cmd.beginRenderPass imageIndex,
   Cmd.bindPipeline,
   Cmd.setViewport,
   Cmd.setScissor,
   Cmd.bindVertexBuffers,
   Cmd.bindIndexBuffer,
   Cmd.drawIndexed (indices.length % 2 ^ 32) 1 0 0 0,
   Cmd.endRenderPass]

/-- GraphicsPipeline::recordCommandBuffer of graphics.cpp (lines 661-726):
same sequence with the per-frame descriptor set bound before the draw
(lines 707-716); the indexed draw is identical (line 719).  The frameIndex
parameter selects the command buffer and the descriptor set. -/
def GX_recordCommandBuffer (indices : List Nat) (frameIndex imageIndex : Nat) :
    List Cmd :=
  [Cmd.beginRenderPass imageIndex,
   Cmd.bindPipeline,
   Cmd.setViewport,
   Cmd.setScissor,
   Cmd.bindVertexBuffers,
   Cmd.bindIndexBuffer,
   Cmd.bindDescriptorSets frameIndex,
   Cmd.drawIndexed (indices.length % 2 ^ 32) 1 0 0 0,
   Cmd.endRenderPass]

/-- The indexed draw calls of a recorded command sequence, as (index count,
instance count) pairs. -/
def drawIndexedCalls : List Cmd → List (Nat × Nat)
  | [] => []
  | Cmd.drawIndexed n inst _ _ _ :: rest => (n, inst) :: drawIndexedCalls rest
  | _ :: rest => drawIndexedCalls rest

/-- Helper: the frame-slot counter computed by iterating the drawFrame
advance equals the iteration count modulo MAX_FRAMES_IN_FLIGHT. -/
theorem frameSlotAfter_eq_mod (k : Nat) :
    frameSlotAfter k = k % MAX_FRAMES_IN_FLIGHT := by
  induction k with
  | zero => rfl
  | succ k ih =>
      rw [frameSlotAfter, ih, MAX_FRAMES_IN_FLIGHT]
      omega

/-- C7: the frame-slot counter advances as slot := (slot + 1) mod N at the
end of every successful drawFrame iteration, starting from 0; hence after
N + 1 frame-advance steps the active slot equals 1, and the counter always
lies in [0, N). -/
theorem frame_slot_counter_modulo :
    (∀ c : Nat, drawFrame VkResult.success VkResult.success VkResult.success c =
      Except.ok ((c + 1) % MAX_FRAMES_IN_FLIGHT)) ∧
    (∀ k : Nat, frameSlotAfter k = k % MAX_FRAMES_IN_FLIGHT) ∧
    frameSlotAfter (MAX_FRAMES_IN_FLIGHT + 1) = 1 ∧
    (∀ k : Nat, frameSlotAfter k < MAX_FRAMES_IN_FLIGHT) := by
  refine ⟨fun c => rfl, frameSlotAfter_eq_mod, rfl, fun k => ?_⟩
  rw [frameSlotAfter_eq_mod, MAX_FRAMES_IN_FLIGHT]
  omega

/-- C1 counterexample: drawFrame does not signal the out-of-date surface
condition distinctly from a fatal failure.  At the acquire step the
out-of-date result produces exactly the same outcome as a device-lost
result — the one fixed fatal runtime error — and likewise at the present
step. -/
theorem drawFrame_out_of_date_not_distinct :
    drawFrame VkResult.errorOutOfDateKHR VkResult.success VkResult.success 0 =
      drawFrame VkResult.errorDeviceLost VkResult.success VkResult.success 0 ∧
    drawFrame VkResult.errorOutOfDateKHR VkResult.success VkResult.success 0 =
      Except.error "failed to acquire swap chain image!" ∧
    drawFrame VkResult.success VkResult.success VkResult.errorOutOfDateKHR 0 =
      drawFrame VkResult.success VkResult.success VkResult.errorDeviceLost 0 := by
  exact ⟨rfl, rfl, rfl⟩

/-- C1 amended: every non-success acquire result makes drawFrame throw the
one fixed acquire error, and every non-success present result makes it
throw the one fixed present error — so the out-of-date condition is
propagated, never silently continued, but it is treated identically to any
fatal failure rather than signalled distinctly. -/
theorem drawFrame_propagates_failures_uniformly :
    ∀ (r : VkResult) (c : Nat), r ≠ VkResult.success →
      drawFrame r VkResult.success VkResult.success c =
        Except.error "failed to acquire swap chain image!" ∧
      drawFrame VkResult.success VkResult.success r c =
        Except.error "failed to present swap chain image!" := by
  intro r c hr
  constructor
  · simp [drawFrame, hr]
  · simp [drawFrame, hr]

/-- C1 amended witness: the uniform propagation applied at the out-of-date
result with frame counter 0. -/
theorem drawFrame_propagates_failures_uniformly_check :
    drawFrame VkResult.errorOutOfDateKHR VkResult.success VkResult.success 0 =
      Except.error "failed to acquire swap chain image!" ∧
    drawFrame VkResult.success VkResult.success VkResult.errorOutOfDateKHR 0 =
      Except.error "failed to present swap chain image!" :=
  drawFrame_propagates_failures_uniformly VkResult.errorOutOfDateKHR 0 (by decide)

/-- The state after writing the given region bytes into the mapped uniform
slot s, all other fields untouched. -/
def setMappedSlot (st : BufferBytesState) (s : Nat) (w : List Nat) : BufferBytesState :=
  { st with uniformBuffersMapped := st.uniformBuffersMapped.set s (some w) }

/-- Helper: the success path of updateUniformBuffer, made explicit: an
in-range slot with a non-null mapped region gets the memcpy of
sizeof(UniformBufferObject) bytes written into that region and nothing
else changes. -/
theorem updateUniformBuffer_ok_eq (st : BufferBytesState) (s : Nat)
    (region ubo : List Nat) (hs : s < MAX_FRAMES_IN_FLIGHT)
    (hmap : st.uniformBuffersMapped.get? s = some (some region)) :
    updateUniformBuffer st s ubo =
      (UpdateResult.ok,
       setMappedSlot st s (memcpyBytes region ubo sizeofUniformBufferObject)) := by
  unfold updateUniformBuffer
  rw [if_neg (Nat.not_le.mpr hs), hmap]
  rfl

/-- C5: updateUniformBuffer rejects every slot index at or above
MAX_FRAMES_IN_FLIGHT with the range error and returns the state unchanged
(no memory write), and rejects every in-range slot whose mapped pointer is
null with the state error, likewise without writing. -/
theorem updateUniformBuffer_rejects_invalid_slots :
    ∀ (st : BufferBytesState) (s : Nat) (ubo : List Nat),
      (MAX_FRAMES_IN_FLIGHT ≤ s →
        updateUniformBuffer st s ubo = (UpdateResult.rangeError, st)) ∧
      (s < MAX_FRAMES_IN_FLIGHT →
        st.uniformBuffersMapped.get? s = some none →
        updateUniformBuffer st s ubo = (UpdateResult.stateError, st)) := by
  intro st s ubo
  constructor
  · intro h
    unfold updateUniformBuffer
    rw [if_pos h]
  · intro h hnull
    unfold updateUniformBuffer
    rw [if_neg (Nat.not_le.mpr h), hnull]

/-- A concrete BufferManager byte state with a null mapped pointer at slot 0
and a zero-filled mapped region at slot 1. -/
def stNullAtZero : BufferBytesState :=
  { uniformBuffersMapped := [none, some (List.replicate 192 0)],
    vertexBufferData := [10, 20],
    indexBufferData := [0, 1] }

/-- C5 witness: the rejection behaviour applied at slot 2 (out of range)
and at slot 0 (null mapped pointer) of the concrete state. -/
theorem updateUniformBuffer_rejects_invalid_slots_check :
    updateUniformBuffer stNullAtZero 2 [1, 2, 3] =
      (UpdateResult.rangeError, stNullAtZero) ∧
    updateUniformBuffer stNullAtZero 0 [1, 2, 3] =
      (UpdateResult.stateError, stNullAtZero) :=
  ⟨(updateUniformBuffer_rejects_invalid_slots stNullAtZero 2 [1, 2, 3]).1 (by decide),
   (updateUniformBuffer_rejects_invalid_slots stNullAtZero 0 [1, 2, 3]).2 (by decide) rfl⟩

/-- Helper: reading back n bytes after a memcpy of an n-byte source returns
exactly the source. -/
theorem memcpyBytes_take (region ubo : List Nat) (n : Nat)
    (h : ubo.length = n) : (memcpyBytes region ubo n).take n = ubo := by
  unfold memcpyBytes
  rw [List.take_of_length_le (le_of_eq h), ← h, List.take_left]

/-- C8: for any in-range slot with a non-null mapped pointer,
updateUniformBuffer followed immediately by a read of that slot's mapped
memory returns exactly the written UniformBufferObject bytes, byte for
byte. -/
theorem updateUniformBuffer_roundtrip :
    ∀ (st : BufferBytesState) (s : Nat) (region ubo : List Nat),
      s < MAX_FRAMES_IN_FLIGHT →
      st.uniformBuffersMapped.get? s = some (some region) →
      ubo.length = sizeofUniformBufferObject →
      ∃ st2, updateUniformBuffer st s ubo = (UpdateResult.ok, st2) ∧
        readUniformBytes st2 s = some ubo := by
  intro st s region ubo hs hmap hlen
  obtain ⟨hlt, -⟩ := List.get?_eq_some.mp hmap
  refine ⟨_, updateUniformBuffer_ok_eq st s region ubo hs hmap, ?_⟩
  unfold readUniformBytes setMappedSlot
  rw [List.get?_set_eq_of_lt _ hlt]
  exact congrArg some (memcpyBytes_take region ubo _ hlen)

/-- A concrete BufferManager byte state with non-null zero-filled mapped
regions in both slots. -/
def stMappedBoth : BufferBytesState :=
  { uniformBuffersMapped :=
      [some (List.replicate 192 0), some (List.replicate 192 0)],
    vertexBufferData := [10, 20],
    indexBufferData := [0, 1] }

/-- The 192-byte uniform payload used by the concrete round-trip checks. -/
def uboPayload : List Nat := List.replicate 192 7

/-- C8 witness: the round trip applied at slot 1 of the concrete state with
the 192-byte payload. -/
theorem updateUniformBuffer_roundtrip_check :
    ∃ st2, updateUniformBuffer stMappedBoth 1 uboPayload = (UpdateResult.ok, st2) ∧
      readUniformBytes st2 1 = some uboPayload :=
  updateUniformBuffer_roundtrip stMappedBoth 1 (List.replicate 192 0) uboPayload
    (by decide) rfl (by rw [uboPayload, List.length_replicate]; rfl)

/-- C10: a successful updateUniformBuffer at slot s writes exactly
sizeof(UniformBufferObject) bytes into slot s mapped region — the first
sizeof bytes of the region become the written data, bytes beyond that
offset are untouched — and leaves the mapped regions of every other slot
and the vertex and index buffer contents unchanged. -/
theorem updateUniformBuffer_only_writes_slot :
    ∀ (st : BufferBytesState) (s : Nat) (region ubo : List Nat),
      s < MAX_FRAMES_IN_FLIGHT →
      st.uniformBuffersMapped.get? s = some (some region) →
      ubo.length = sizeofUniformBufferObject →
      ∃ st2, updateUniformBuffer st s ubo = (UpdateResult.ok, st2) ∧
        st2.vertexBufferData = st.vertexBufferData ∧
        st2.indexBufferData = st.indexBufferData ∧
        (∀ t, t ≠ s →
          st2.uniformBuffersMapped.get? t = st.uniformBuffersMapped.get? t) ∧
        ∃ written, st2.uniformBuffersMapped.get? s = some (some written) ∧
          written.take sizeofUniformBufferObject = ubo ∧
          written.drop sizeofUniformBufferObject =
            region.drop sizeofUniformBufferObject := by
  intro st s region ubo hs hmap hlen
  obtain ⟨hlt, -⟩ := List.get?_eq_some.mp hmap
  refine ⟨_, updateUniformBuffer_ok_eq st s region ubo hs hmap, rfl, rfl, ?_, ?_⟩
  · intro t ht
    unfold setMappedSlot
    exact List.get?_set_ne _ _ (fun hst => ht hst.symm)
  · refine ⟨memcpyBytes region ubo sizeofUniformBufferObject, ?_, ?_, ?_⟩
    · unfold setMappedSlot
      exact List.get?_set_eq_of_lt _ hlt
    · exact memcpyBytes_take region ubo _ hlen
    · unfold memcpyBytes
      rw [List.take_of_length_le (le_of_eq hlen), ← hlen, List.drop_left]

/-- C10 witness: the frame-effect statement applied at slot 0 of the
concrete two-slot state with the 192-byte payload. -/
theorem updateUniformBuffer_only_writes_slot_check :
    ∃ st2, updateUniformBuffer stMappedBoth 0 uboPayload = (UpdateResult.ok, st2) ∧
      st2.vertexBufferData = stMappedBoth.vertexBufferData ∧
      st2.indexBufferData = stMappedBoth.indexBufferData ∧
      (∀ t, t ≠ 0 →
        st2.uniformBuffersMapped.get? t = stMappedBoth.uniformBuffersMapped.get? t) ∧
      ∃ written, st2.uniformBuffersMapped.get? 0 = some (some written) ∧
        written.take sizeofUniformBufferObject = uboPayload ∧
        written.drop sizeofUniformBufferObject =
          (List.replicate 192 0).drop sizeofUniformBufferObject :=
  updateUniformBuffer_only_writes_slot stMappedBoth 0 (List.replicate 192 0)
    uboPayload (by decide) rfl (by rw [uboPayload, List.length_replicate]; rfl)

/-- A CommandBufferManager state whose four vectors all have
MAX_FRAMES_IN_FLIGHT slots and hold non-null handles. -/
def cbmFull : CommandBufferManagerState :=
  { commandBuffers := [some 1, some 2],
    imageAvailableSemaphores := [some 3, some 4],
    renderFinishedSemaphores := [some 5, some 6],
    inFlightFences := [some 7, some 8] }

/-- A GraphicsPipeline state whose vectors have MAX_FRAMES_IN_FLIGHT
slots, with a null handle at slot 0 in each of the four vectors. -/
def gpNullAtZero : GraphicsPipelineSyncState :=
  { commandBuffers := [none, some 2],
    imageAvailableSemaphores := [none, some 4],
    renderFinishedSemaphores := [none, some 6],
    inFlightFences := [none, some 8] }

/-- C2 counterexample: the accessors are not bounds-checked as claimed.
On the fully initialized CommandBufferManager state, the out-of-range slot
index 2 makes every one of the four accessors perform an unchecked
std::vector access instead of failing with an error; and on the
GraphicsPipeline variant a null stored handle at the in-range slot 0 is
returned as-is by every one of its four accessors instead of raising a
not-initialized error, while the out-of-range index 2 is again an
unchecked access. -/
theorem accessors_not_bounds_checked :
    CBM_getCommandBuffer cbmFull 2 = AccessOutcome.undefinedAccess ∧
    CBM_getImageAvailableSemaphore cbmFull 2 = AccessOutcome.undefinedAccess ∧
    CBM_getRenderFinishedSemaphore cbmFull 2 = AccessOutcome.undefinedAccess ∧
    CBM_getInFlightFence cbmFull 2 = AccessOutcome.undefinedAccess ∧
    GP_getCommandBuffer gpNullAtZero 0 = AccessOutcome.ok none ∧
    GP_getImageAvailableSemaphore gpNullAtZero 0 = AccessOutcome.ok none ∧
    GP_getRenderFinishedSemaphore gpNullAtZero 0 = AccessOutcome.ok none ∧
    GP_getInFlightFence gpNullAtZero 0 = AccessOutcome.ok none ∧
    GP_getCommandBuffer gpNullAtZero 2 = AccessOutcome.undefinedAccess := by
  exact ⟨rfl, rfl, rfl, rfl, rfl, rfl, rfl, rfl, rfl⟩

/-- Helper: behaviour of the shared null-checking accessor shape. -/
theorem nullCheckedGet_spec (v : List (Option Nat)) (i : Nat) (msg : String) :
    (v.get? i = some none → nullCheckedGet v i msg = AccessOutcome.thrown msg) ∧
    (∀ h, v.get? i = some (some h) →
      nullCheckedGet v i msg = AccessOutcome.ok (some h)) ∧
    (v.length ≤ i → nullCheckedGet v i msg = AccessOutcome.undefinedAccess) := by
  refine ⟨fun hnull => ?_, fun h hsome => ?_, fun hlen => ?_⟩
  · unfold nullCheckedGet
    rw [hnull]
  · unfold nullCheckedGet
    rw [hsome]
  · unfold nullCheckedGet
    rw [List.get?_eq_none.mpr hlen]

/-- Helper: behaviour of the shared unchecked accessor shape. -/
theorem uncheckedGet_spec (v : List (Option Nat)) (i : Nat) :
    (∀ h, v.get? i = some h → uncheckedGet v i = AccessOutcome.ok h) ∧
    (v.length ≤ i → uncheckedGet v i = AccessOutcome.undefinedAccess) := by
  refine ⟨fun h hsome => ?_, fun hlen => ?_⟩
  · unfold uncheckedGet
    rw [hsome]
  · unfold uncheckedGet
    rw [List.get?_eq_none.mpr hlen]

/-- C2 amended: the CommandBufferManager accessors only null-check — a
stored null handle at an in-range index makes each of the four accessors
throw its does-not-exist error and a stored non-null handle is returned —
but none of them bounds-checks the index: any index past the vector end is
an unchecked std::vector access.  The four GraphicsPipeline accessors
check nothing at all: each returns whatever is stored (a null handle
included) and an index past the vector end is likewise an unchecked
access. -/
theorem accessors_null_check_only :
    ∀ (m : CommandBufferManagerState) (g : GraphicsPipelineSyncState) (i : Nat),
      (m.commandBuffers.get? i = some none →
        CBM_getCommandBuffer m i =
          AccessOutcome.thrown ("Command Buffer ." ++ toString i ++ " does not exist!")) ∧
      (m.commandBuffers.length ≤ i →
        CBM_getCommandBuffer m i = AccessOutcome.undefinedAccess) ∧
      (m.imageAvailableSemaphores.get? i = some none →
        CBM_getImageAvailableSemaphore m i =
          AccessOutcome.thrown ("Image available semaphore " ++ toString i ++ " does not exist!")) ∧
      (m.imageAvailableSemaphores.length ≤ i →
        CBM_getImageAvailableSemaphore m i = AccessOutcome.undefinedAccess) ∧
      (m.renderFinishedSemaphores.get? i = some none →
        CBM_getRenderFinishedSemaphore m i =
          AccessOutcome.thrown ("Render Finished Semaphore " ++ toString i ++ " does not exist!")) ∧
      (m.renderFinishedSemaphores.length ≤ i →
        CBM_getRenderFinishedSemaphore m i = AccessOutcome.undefinedAccess) ∧
      (m.inFlightFences.get? i = some none →
        CBM_getInFlightFence m i =
          AccessOutcome.thrown ("In Flight Fence " ++ toString i ++ " does not exist!")) ∧
      (m.inFlightFences.length ≤ i →
        CBM_getInFlightFence m i = AccessOutcome.undefinedAccess) ∧
      (∀ h, m.commandBuffers.get? i = some (some h) →
        CBM_getCommandBuffer m i = AccessOutcome.ok (some h)) ∧
      (∀ h, g.commandBuffers.get? i = some h →
        GP_getCommandBuffer g i = AccessOutcome.ok h) ∧
      (g.commandBuffers.length ≤ i →
        GP_getCommandBuffer g i = AccessOutcome.undefinedAccess) ∧
      (∀ h, g.imageAvailableSemaphores.get? i = some h →
        GP_getImageAvailableSemaphore g i = AccessOutcome.ok h) ∧
      (g.imageAvailableSemaphores.length ≤ i →
        GP_getImageAvailableSemaphore g i = AccessOutcome.undefinedAccess) ∧
      (∀ h, g.renderFinishedSemaphores.get? i = some h →
        GP_getRenderFinishedSemaphore g i = AccessOutcome.ok h) ∧
      (g.renderFinishedSemaphores.length ≤ i →
        GP_getRenderFinishedSemaphore g i = AccessOutcome.undefinedAccess) ∧
      (∀ h, g.inFlightFences.get? i = some h →
        GP_getInFlightFence g i = AccessOutcome.ok h) ∧
      (g.inFlightFences.length ≤ i →
        GP_getInFlightFence g i = AccessOutcome.undefinedAccess) := by
  intro m g i
  exact ⟨(nullCheckedGet_spec m.commandBuffers i _).1,
         (nullCheckedGet_spec m.commandBuffers i _).2.2,
         (nullCheckedGet_spec m.imageAvailableSemaphores i _).1,
         (nullCheckedGet_spec m.imageAvailableSemaphores i _).2.2,
         (nullCheckedGet_spec m.renderFinishedSemaphores i _).1,
         (nullCheckedGet_spec m.renderFinishedSemaphores i _).2.2,
         (nullCheckedGet_spec m.inFlightFences i _).1,
         (nullCheckedGet_spec m.inFlightFences i _).2.2,
         (nullCheckedGet_spec m.commandBuffers i _).2.1,
         (uncheckedGet_spec g.commandBuffers i).1,
         (uncheckedGet_spec g.commandBuffers i).2,
         (uncheckedGet_spec g.imageAvailableSemaphores i).1,
         (uncheckedGet_spec g.imageAvailableSemaphores i).2,
         (uncheckedGet_spec g.renderFinishedSemaphores i).1,
         (uncheckedGet_spec g.renderFinishedSemaphores i).2,
         (uncheckedGet_spec g.inFlightFences i).1,
         (uncheckedGet_spec g.inFlightFences i).2⟩

/-- A CommandBufferManager state with every handle null, as after the
resize calls in the constructor before any creation succeeded. -/
def cbmAllNull : CommandBufferManagerState :=
  { commandBuffers := [none, none],
    imageAvailableSemaphores := [none, none],
    renderFinishedSemaphores := [none, none],
    inFlightFences := [none, none] }

/-- C2 amended witness: the null-check behaviour applied at slot 0 of the
all-null CommandBufferManager state, the out-of-range behaviour at slot 2
of the initialized state, the null-returning behaviour of all four
GraphicsPipeline accessors at slot 0 of the null-at-zero state, and the
out-of-range behaviour of a GraphicsPipeline accessor at slot 2. -/
theorem accessors_null_check_only_check :
    CBM_getCommandBuffer cbmAllNull 0 =
      AccessOutcome.thrown ("Command Buffer ." ++ toString 0 ++ " does not exist!") ∧
    CBM_getInFlightFence cbmFull 2 = AccessOutcome.undefinedAccess ∧
    GP_getCommandBuffer gpNullAtZero 0 = AccessOutcome.ok none ∧
    GP_getImageAvailableSemaphore gpNullAtZero 0 = AccessOutcome.ok none ∧
    GP_getRenderFinishedSemaphore gpNullAtZero 0 = AccessOutcome.ok none ∧
    GP_getInFlightFence gpNullAtZero 0 = AccessOutcome.ok none ∧
    GP_getRenderFinishedSemaphore gpNullAtZero 2 = AccessOutcome.undefinedAccess := by
  obtain ⟨z1, -, -, -, -, -, -, -, -, z10, -, z12, -, z14, -, z16, -⟩ :=
    accessors_null_check_only cbmAllNull gpNullAtZero 0
  obtain ⟨-, -, -, -, -, -, -, t8, -, -, -, -, -, -, t15, -, -⟩ :=
    accessors_null_check_only cbmFull gpNullAtZero 2
  exact ⟨z1 rfl, t8 (by decide), z10 none rfl, z12 none rfl, z14 none rfl,
         z16 none rfl, t15 (by decide)⟩


/-- Helper: every fence that the CommandBufferManager creation loop returns
is either one of the fences already accumulated or was created with the
signaled bit set; the loop also adds exactly one fence per remaining slot. -/
theorem CBM_createSyncObjectsLoop_fences (ok : Nat → Bool) :
    ∀ (k c : Nat) (ia rf : List Nat) (fe : List Fence)
      (r : List Nat × List Nat × List Fence),
      CBM_createSyncObjectsLoop ok c k ia rf fe = Except.ok r →
      r.2.2.length = fe.length + k ∧
      ∀ f ∈ r.2.2, f ∈ fe ∨ f.signaled = true := by
  intro k
  induction k with
  | zero =>
      intro c ia rf fe r hr
      unfold CBM_createSyncObjectsLoop at hr
      obtain rfl : (ia, rf, fe) = r := by injection hr
      exact ⟨rfl, fun f hf => Or.inl hf⟩
  | succ k ih =>
      intro c ia rf fe r hr
      unfold CBM_createSyncObjectsLoop createSemaphoreOp createFenceOp at hr
      by_cases h1 : ok c
      · simp only [if_pos h1] at hr
        by_cases h2 : ok (c + 1)
        · simp only [if_pos h2] at hr
          by_cases h3 : ok (c + 1 + 1)
          · simp only [if_pos h3] at hr
            obtain ⟨hlen, hmem⟩ := ih _ _ _ _ _ hr
            refine ⟨by rw [hlen]; simp; omega, fun f hf => ?_⟩
            rcases hmem f hf with hfe | hsig
            · rcases List.mem_append.mp hfe with hfe | hnew
              · exact Or.inl hfe
              · refine Or.inr ?_
                rw [List.mem_singleton.mp hnew]
            · exact Or.inr hsig
          · simp only [if_neg h3] at hr
            exact Except.noConfusion hr
        · simp only [if_neg h2] at hr
          exact Except.noConfusion hr
      · simp only [if_neg h1] at hr
        exact Except.noConfusion hr

/-- Helper: the same statement for the GraphicsPipeline creation loop. -/
theorem GP_createSyncObjectsLoop_fences (ok : Nat → Bool) :
    ∀ (k c : Nat) (ia rf : List Nat) (fe : List Fence)
      (r : List Nat × List Nat × List Fence),
      GP_createSyncObjectsLoop ok c k ia rf fe = Except.ok r →
      r.2.2.length = fe.length + k ∧
      ∀ f ∈ r.2.2, f ∈ fe ∨ f.signaled = true := by
  intro k
  induction k with
  | zero =>
      intro c ia rf fe r hr
      unfold GP_createSyncObjectsLoop at hr
      obtain rfl : (ia, rf, fe) = r := by injection hr
      exact ⟨rfl, fun f hf => Or.inl hf⟩
  | succ k ih =>
      intro c ia rf fe r hr
      unfold GP_createSyncObjectsLoop createSemaphoreOp createFenceOp at hr
      by_cases h1 : ok c
      · simp only [if_pos h1] at hr
        by_cases h2 : ok (c + 1)
        · simp only [if_pos h2] at hr
          by_cases h3 : ok (c + 1 + 1)
          · simp only [if_pos h3] at hr
            obtain ⟨hlen, hmem⟩ := ih _ _ _ _ _ hr
            refine ⟨by rw [hlen]; simp; omega, fun f hf => ?_⟩
            rcases hmem f hf with hfe | hsig
            · rcases List.mem_append.mp hfe with hfe | hnew
              · exact Or.inl hfe
              · refine Or.inr ?_
                rw [List.mem_singleton.mp hnew]
            · exact Or.inr hsig
          · simp only [if_neg h3] at hr
            exact Except.noConfusion hr
        · simp only [if_neg h2] at hr
          exact Except.noConfusion hr
      · simp only [if_neg h1] at hr
        exact Except.noConfusion hr

/-- C6: whenever createSyncObjects completes successfully — in either
implementation — it has created exactly MAX_FRAMES_IN_FLIGHT in-flight
fences, every one of them in the signaled state, so the first
waitForFences call on any slot returns immediately. -/
theorem createSyncObjects_fences_signaled :
    ∀ (ok : Nat → Bool) (r : List Nat × List Nat × List Fence),
      (CBM_createSyncObjects ok = Except.ok r →
        r.2.2.length = MAX_FRAMES_IN_FLIGHT ∧
        ∀ f ∈ r.2.2, waitForFencesReturnsImmediately f = true) ∧
      (GP_createSyncObjects ok = Except.ok r →
        r.2.2.length = MAX_FRAMES_IN_FLIGHT ∧
        ∀ f ∈ r.2.2, waitForFencesReturnsImmediately f = true) := by
  intro ok r
  constructor
  · intro hr
    obtain ⟨hlen, hmem⟩ :=
      CBM_createSyncObjectsLoop_fences ok MAX_FRAMES_IN_FLIGHT 0 [] [] [] r hr
    refine ⟨by simpa using hlen, fun f hf => ?_⟩
    rcases hmem f hf with hfe | hsig
    · exact absurd hfe (List.not_mem_nil f)
    · exact hsig
  · intro hr
    obtain ⟨hlen, hmem⟩ :=
      GP_createSyncObjectsLoop_fences ok MAX_FRAMES_IN_FLIGHT 0 [] [] [] r hr
    refine ⟨by simpa using hlen, fun f hf => ?_⟩
    rcases hmem f hf with hfe | hsig
    · exact absurd hfe (List.not_mem_nil f)
    · exact hsig

/-- C6 witness: with an always-succeeding device, the CommandBufferManager
createSyncObjects returns two fences, both signaled, so the first wait on
each slot returns immediately. -/
theorem createSyncObjects_fences_signaled_check :
    (List.replicate 2 ({ signaled := true } : Fence)).length = MAX_FRAMES_IN_FLIGHT ∧
    ∀ f ∈ List.replicate 2 ({ signaled := true } : Fence),
      waitForFencesReturnsImmediately f = true :=
  (createSyncObjects_fences_signaled (fun _ => true)
    ([0, 3], [1, 4], List.replicate 2 { signaled := true })).1 rfl

/-- C9: for a fixed index array of K 16-bit indices (K below 2 to the 32nd,
as required by the uint32_t cast), every invocation of recordCommandBuffer
records exactly one indexed draw call, with index count K and instance
count 1, for every frame index and every acquired swapchain image index —
in both recordCommandBuffer implementations. -/
theorem recordCommandBuffer_one_draw :
    ∀ (indices : List Nat) (frameIndex imageIndex : Nat),
      indices.length < 2 ^ 32 →
      drawIndexedCalls (GP_recordCommandBuffer indices frameIndex imageIndex) =
        [(indices.length, 1)] ∧
      drawIndexedCalls (GX_recordCommandBuffer indices frameIndex imageIndex) =
        [(indices.length, 1)] := by
  intro indices frameIndex imageIndex hk
  unfold GP_recordCommandBuffer GX_recordCommandBuffer drawIndexedCalls
  rw [Nat.mod_eq_of_lt hk]
  exact ⟨rfl, rfl⟩

/-- C9 witness: the quad index buffer of main.cpp (six indices) records the
one draw call with index count 6 and instance count 1 in both
implementations, here at frame slot 0 and image index 1. -/
theorem recordCommandBuffer_one_draw_check :
    drawIndexedCalls (GP_recordCommandBuffer [0, 1, 2, 2, 3, 0] 0 1) = [(6, 1)] ∧
    drawIndexedCalls (GX_recordCommandBuffer [0, 1, 2, 2, 3, 0] 0 1) = [(6, 1)] :=
  recordCommandBuffer_one_draw [0, 1, 2, 2, 3, 0] 0 1 (by decide)

/-- Freshness invariant of the allocator model: every outstanding handle is
below the next fresh handle.  It holds of a fresh allocator and is
preserved by every allocator operation. -/
def AllocWF (a : Alloc) : Prop :=
  ∀ id ∈ a.live, id < a.nextId

/-- C4 amended, part proved: in the BufferManager staged upload the staging
buffer is destroyed on every exit path, including a failing copy step, and
on copy failure the partially created destination buffer is destroyed too,
so the upload followed by the destructor action on the stored member
returns the allocator to exactly its pre-upload outstanding set — for every
failure pattern of the allocator. -/
theorem BM_staged_upload_no_leak :
    ∀ (ok : Nat → Bool) (a : Alloc), AllocWF a →
      (destroyOptBuffer (BM_createVertexBuffer ok a).alloc
        (BM_createVertexBuffer ok a).bufferHandle).live = a.live := by
  intro ok a hwf
  unfold BM_createVertexBuffer BM_stagedUpload allocCreateBuffer allocMapMemory allocCopyBuffer
  by_cases h1 : ok a.calls
  · simp only [if_pos h1]
    by_cases h2 : ok (a.calls + 1)
    · simp only [if_pos h2]
      by_cases h3 : ok (a.calls + 1 + 1)
      · simp only [if_pos h3]
        by_cases h4 : ok (a.calls + 1 + 1 + 1)
        · simp only [h4]
          simp only [destroyOptBuffer, allocDestroyBuffer]
          rw [List.erase_cons_tail (by simp), List.erase_cons_head,
              List.erase_cons_head]
        · rw [Bool.not_eq_true] at h4
          simp only [h4]
          simp only [destroyOptBuffer, allocDestroyBuffer]
          rw [List.erase_cons_tail (by simp), List.erase_cons_head,
              List.erase_cons_head]
          exact List.erase_of_not_mem fun hmem =>
            Nat.lt_irrefl _ (Nat.lt_of_lt_of_le (hwf _ hmem) (Nat.le_succ _))
      · simp only [if_neg h3]
        simp only [destroyOptBuffer, allocDestroyBuffer]
        exact List.erase_cons_head _ _
    · simp only [if_neg h2]
      simp only [destroyOptBuffer, allocDestroyBuffer]
      exact List.erase_cons_head _ _
  · simp only [if_neg h1]
    rfl

/-- The fresh allocator state before any upload. -/
def allocStart : Alloc :=
  { nextId := 0, live := [], calls := 0 }

/-- An allocator oracle that accepts every call except the fourth one — the
staging-to-destination copy of an otherwise successful staged upload. -/
def okFailCopy : Nat → Bool :=
  fun n => !(n == 3)

/-- C4 amended witness: the no-leak property applied to the fresh allocator
under the oracle that fails exactly the copy step. -/
theorem BM_staged_upload_no_leak_check :
    (destroyOptBuffer (BM_createVertexBuffer okFailCopy allocStart).alloc
      (BM_createVertexBuffer okFailCopy allocStart).bufferHandle).live =
      allocStart.live :=
  BM_staged_upload_no_leak okFailCopy allocStart (by simp [AllocWF, allocStart])

/-- C4 counterexample: in the GraphicsPipeline variant of createVertexBuffer
the claim fails.  Under the oracle that fails exactly the copy step, the
exception escapes with no cleanup: starting from the fresh allocator with
no outstanding allocations, both the staging buffer (handle 0) and the
destination buffer (handle 1) are still outstanding afterwards, and even
after the destructor destroys the stored destination member the staging
buffer remains leaked. -/
theorem GP_staged_upload_leak :
    (GP_createVertexBuffer okFailCopy allocStart).threw = true ∧
    (GP_createVertexBuffer okFailCopy allocStart).alloc.live = [1, 0] ∧
    (destroyOptBuffer (GP_createVertexBuffer okFailCopy allocStart).alloc
      (GP_createVertexBuffer okFailCopy allocStart).bufferHandle).live = [0] ∧
    allocStart.live = [] := by
  exact ⟨rfl, rfl, rfl, rfl⟩

/-- Helper: destroying, in creation order, a list of buffers that sit on top
of the original outstanding list (and contains no duplicates) restores
exactly the original outstanding list. -/
theorem destroyBuffersList_restores :
    ∀ (created : List Nat) (orig : List Nat) (a : Alloc),
      a.live = created.reverse ++ orig → created.Nodup →
      (destroyBuffersList a created).live = orig := by
  intro created
  induction created with
  | nil =>
      intro orig a he _
      simpa using he
  | cons c cs ih =>
      intro orig a he hn
      obtain ⟨hc, hcs⟩ := List.nodup_cons.mp hn
      have hcrev : c ∉ cs.reverse := fun hmem => hc (List.mem_reverse.mp hmem)
      have hstep : (allocDestroyBuffer a c).live = cs.reverse ++ orig := by
        show a.live.erase c = cs.reverse ++ orig
        rw [he, List.reverse_cons, List.append_assoc,
            List.erase_append_right _ hcrev, List.singleton_append,
            List.erase_cons_head]
      exact ih orig (allocDestroyBuffer a c) hstep hcs

/-- Helper: whenever the createUniformBuffers loop returns false, every
uniform buffer created during the loop has been destroyed again, so the
outstanding list is back to what it was before the loop (orig), provided
the already-created buffers sit on top of orig and are fresh. -/
theorem BM_createUniformBuffersLoop_rollback (ok : Nat → Bool) :
    ∀ (k : Nat) (a : Alloc) (i : Nat) (created : List Nat)
      (bufs mapped : List (Option Nat)) (orig : List Nat),
      a.live = created.reverse ++ orig →
      created.Nodup →
      (∀ c ∈ created, c < a.nextId) →
      (BM_createUniformBuffersLoop ok k a i created bufs mapped).succeeded = false →
      (BM_createUniformBuffersLoop ok k a i created bufs mapped).alloc.live = orig := by
  intro k
  induction k with
  | zero =>
      intro a i created bufs mapped orig _ _ _ hfail
      exact Bool.noConfusion hfail
  | succ k ih =>
      intro a i created bufs mapped orig he hn hlt hfail
      have hid : a.nextId ∉ created := fun hmem =>
        absurd (hlt _ hmem) (Nat.lt_irrefl _)
      have hnodup2 : (created ++ [a.nextId]).Nodup := by
        rw [List.nodup_append]
        refine ⟨hn, List.nodup_singleton _, ?_⟩
        intro x hx hmem
        rw [List.mem_singleton] at hmem
        exact hid (hmem ▸ hx)
      have hrev2 : (a.nextId :: a.live) = (created ++ [a.nextId]).reverse ++ orig := by
        rw [List.reverse_append, List.reverse_singleton, List.singleton_append,
            he]
        rfl
      unfold BM_createUniformBuffersLoop allocCreateBuffer allocMapMemory at hfail ⊢
      by_cases h1 : ok a.calls
      · simp only [if_pos h1] at hfail ⊢
        by_cases h2 : ok (a.calls + 1)
        · simp only [if_pos h2] at hfail ⊢
          refine ih _ _ _ _ _ orig hrev2 hnodup2 ?_ hfail
          intro c hc
          rcases List.mem_append.mp hc with h | h
          · exact Nat.lt_succ_of_lt (hlt _ h)
          · rw [List.mem_singleton.mp h]
            exact Nat.lt_succ_self _
        · simp only [if_neg h2] at hfail ⊢
          exact destroyBuffersList_restores _ orig _ hrev2 hnodup2
      · simp only [if_neg h1] at hfail ⊢
        exact destroyBuffersList_restores _ orig _ he hn

/-- C3 amended, part proved: when any uniform-buffer creation or mapping in
the createUniformBuffers loop fails, the previously created uniform buffers
are destroyed before the function returns false, so the allocator
outstanding set is exactly what it was before the call. -/
theorem createUniformBuffers_rollback :
    ∀ (ok : Nat → Bool) (a : Alloc),
      (BM_createUniformBuffers ok a).succeeded = false →
      (BM_createUniformBuffers ok a).alloc.live = a.live := by
  intro ok a hfail
  exact BM_createUniformBuffersLoop_rollback ok MAX_FRAMES_IN_FLIGHT a 0 []
    (List.replicate MAX_FRAMES_IN_FLIGHT none)
    (List.replicate MAX_FRAMES_IN_FLIGHT none) a.live (by simp) (by simp)
    (by simp) hfail

/-- An allocator oracle that rejects every call. -/
def okAllFail : Nat → Bool :=
  fun _ => false

/-- C3 amended witness: the rollback applied to the fresh allocator under
the always-failing oracle — the first uniform-buffer creation is rejected
and the outstanding list is unchanged. -/
theorem createUniformBuffers_rollback_check :
    (BM_createUniformBuffers okAllFail allocStart).alloc.live = allocStart.live :=
  createUniformBuffers_rollback okAllFail allocStart rfl

/-- An allocator oracle that accepts every call except the eleventh — the
creation of the second uniform buffer when the Buffer Manager constructor
runs from a fresh allocator (calls 0-3 upload the vertex buffer, 4-7 the
index buffer, 8-9 create and map uniform buffer 0, 10 creates uniform
buffer 1). -/
def okFailSecondUniform : Nat → Bool :=
  fun n => !(n == 10)

/-- C3 counterexample: the failure is not propagated and startup is not
aborted.  Under the oracle that rejects the creation of the second uniform
buffer, createUniformBuffers returns false (with the first uniform buffer
rolled back), yet the BufferManager constructor — which discards the
boolean results — completes, leaving the uniform-buffer vector with a
missing (null) handle in slot 1, while the vertex buffer (handle 1) and
index buffer (handle 3) remain outstanding. -/
theorem bufferManagerCtor_completes_despite_failure :
    (BM_createUniformBuffers okFailSecondUniform
      (BM_createIndexBuffer okFailSecondUniform
        (BM_createVertexBuffer okFailSecondUniform allocStart).alloc).alloc).succeeded
      = false ∧
    (BufferManagerCtor okFailSecondUniform allocStart).uniformBuffers =
      [some 4, none] ∧
    (BufferManagerCtor okFailSecondUniform allocStart).alloc.live = [3, 1] := by
  exact ⟨rfl, rfl, rfl⟩
